import Mathlib

/-!
Verification development for the `claude-api.py` helper script
(`.github/scripts/claude-api.py`): a CLI with three subcommands (`spec`,
`test-analysis`, `pr-review`) that builds a prompt from its inputs, makes at
most one call to a remote text-generation service, and writes the textual
result to a file or to standard output.

The embedding models Python text as `List Char` (Python strings are sequences
of code points, and slicing such as `s[:4000]` is by code point), parsed JSON
as the inductive `JValue`, Python's dynamic dict/list accesses (`.get`, `in`,
iteration, subscripting) as `Except PyErr` computations that raise the same
exception kinds CPython would raise, and the remote service, the filesystem
and `json.load` as oracles carried in an `Env` record.  The observable
behaviour of one process run (`exit code`, stdout lines, stderr lines, file
writes, network calls) is the `Outcome` record computed by `runMain`.
-/

/-- Python text: a sequence of Unicode code points. -/
abbrev PyStr := List Char

/-- Parsed JSON values, as produced by `json.load`.  JSON numbers are modelled
as integers; no claim concerns numeric report fields. -/
inductive JValue where
  | null : JValue
  | bool : Bool → JValue
  | num : Int → JValue
  | str : String → JValue
  | arr : List JValue → JValue
  | obj : List (String × JValue) → JValue

mutual

/-- Decidable equality on `JValue` (the automatic derivation does not handle
the nested `List` occurrences). -/
def JValue.decEq : (a b : JValue) → Decidable (a = b)
  | JValue.null, JValue.null => Decidable.isTrue rfl
  | JValue.bool a, JValue.bool b =>
    match Bool.decEq a b with
    | Decidable.isTrue h => Decidable.isTrue (h ▸ rfl)
    | Decidable.isFalse h => Decidable.isFalse (fun hh => h (JValue.bool.inj hh))
  | JValue.num a, JValue.num b =>
    match Int.decEq a b with
    | Decidable.isTrue h => Decidable.isTrue (h ▸ rfl)
    | Decidable.isFalse h => Decidable.isFalse (fun hh => h (JValue.num.inj hh))
  | JValue.str a, JValue.str b =>
    match String.decEq a b with
    | Decidable.isTrue h => Decidable.isTrue (h ▸ rfl)
    | Decidable.isFalse h => Decidable.isFalse (fun hh => h (JValue.str.inj hh))
  | JValue.arr xs, JValue.arr ys =>
    match JValue.decEqList xs ys with
    | Decidable.isTrue h => Decidable.isTrue (h ▸ rfl)
    | Decidable.isFalse h => Decidable.isFalse (fun hh => h (JValue.arr.inj hh))
  | JValue.obj fs, JValue.obj gs =>
    match JValue.decEqFields fs gs with
    | Decidable.isTrue h => Decidable.isTrue (h ▸ rfl)
    | Decidable.isFalse h => Decidable.isFalse (fun hh => h (JValue.obj.inj hh))
  | JValue.null, JValue.bool _ => Decidable.isFalse (fun h => JValue.noConfusion h)
  | JValue.null, JValue.num _ => Decidable.isFalse (fun h => JValue.noConfusion h)
  | JValue.null, JValue.str _ => Decidable.isFalse (fun h => JValue.noConfusion h)
  | JValue.null, JValue.arr _ => Decidable.isFalse (fun h => JValue.noConfusion h)
  | JValue.null, JValue.obj _ => Decidable.isFalse (fun h => JValue.noConfusion h)
  | JValue.bool _, JValue.null => Decidable.isFalse (fun h => JValue.noConfusion h)
  | JValue.bool _, JValue.num _ => Decidable.isFalse (fun h => JValue.noConfusion h)
  | JValue.bool _, JValue.str _ => Decidable.isFalse (fun h => JValue.noConfusion h)
  | JValue.bool _, JValue.arr _ => Decidable.isFalse (fun h => JValue.noConfusion h)
  | JValue.bool _, JValue.obj _ => Decidable.isFalse (fun h => JValue.noConfusion h)
  | JValue.num _, JValue.null => Decidable.isFalse (fun h => JValue.noConfusion h)
  | JValue.num _, JValue.bool _ => Decidable.isFalse (fun h => JValue.noConfusion h)
  | JValue.num _, JValue.str _ => Decidable.isFalse (fun h => JValue.noConfusion h)
  | JValue.num _, JValue.arr _ => Decidable.isFalse (fun h => JValue.noConfusion h)
  | JValue.num _, JValue.obj _ => Decidable.isFalse (fun h => JValue.noConfusion h)
  | JValue.str _, JValue.null => Decidable.isFalse (fun h => JValue.noConfusion h)
  | JValue.str _, JValue.bool _ => Decidable.isFalse (fun h => JValue.noConfusion h)
  | JValue.str _, JValue.num _ => Decidable.isFalse (fun h => JValue.noConfusion h)
  | JValue.str _, JValue.arr _ => Decidable.isFalse (fun h => JValue.noConfusion h)
  | JValue.str _, JValue.obj _ => Decidable.isFalse (fun h => JValue.noConfusion h)
  | JValue.arr _, JValue.null => Decidable.isFalse (fun h => JValue.noConfusion h)
  | JValue.arr _, JValue.bool _ => Decidable.isFalse (fun h => JValue.noConfusion h)
  | JValue.arr _, JValue.num _ => Decidable.isFalse (fun h => JValue.noConfusion h)
  | JValue.arr _, JValue.str _ => Decidable.isFalse (fun h => JValue.noConfusion h)
  | JValue.arr _, JValue.obj _ => Decidable.isFalse (fun h => JValue.noConfusion h)
  | JValue.obj _, JValue.null => Decidable.isFalse (fun h => JValue.noConfusion h)
  | JValue.obj _, JValue.bool _ => Decidable.isFalse (fun h => JValue.noConfusion h)
  | JValue.obj _, JValue.num _ => Decidable.isFalse (fun h => JValue.noConfusion h)
  | JValue.obj _, JValue.str _ => Decidable.isFalse (fun h => JValue.noConfusion h)
  | JValue.obj _, JValue.arr _ => Decidable.isFalse (fun h => JValue.noConfusion h)

/-- Decidable equality on lists of `JValue`. -/
def JValue.decEqList : (xs ys : List JValue) → Decidable (xs = ys)
  | [], [] => Decidable.isTrue rfl
  | [], _ :: _ => Decidable.isFalse (fun h => List.noConfusion h)
  | _ :: _, [] => Decidable.isFalse (fun h => List.noConfusion h)
  | x :: xs, y :: ys =>
    match JValue.decEq x y with
    | Decidable.isFalse h1 => Decidable.isFalse (fun h => h1 (List.cons.inj h).1)
    | Decidable.isTrue h1 =>
      match JValue.decEqList xs ys with
      | Decidable.isTrue h2 => Decidable.isTrue (h1 ▸ h2 ▸ rfl)
      | Decidable.isFalse h2 => Decidable.isFalse (fun h => h2 (List.cons.inj h).2)

/-- Decidable equality on JSON object field lists. -/
def JValue.decEqFields : (ps qs : List (String × JValue)) → Decidable (ps = qs)
  | [], [] => Decidable.isTrue rfl
  | [], _ :: _ => Decidable.isFalse (fun h => List.noConfusion h)
  | _ :: _, [] => Decidable.isFalse (fun h => List.noConfusion h)
  | (k1, v1) :: ps, (k2, v2) :: qs =>
    match String.decEq k1 k2 with
    | Decidable.isFalse h1 =>
      Decidable.isFalse (fun h => h1 (congrArg Prod.fst (List.cons.inj h).1))
    | Decidable.isTrue h1 =>
      match JValue.decEq v1 v2 with
      | Decidable.isFalse h2 =>
        Decidable.isFalse (fun h => h2 (congrArg Prod.snd (List.cons.inj h).1))
      | Decidable.isTrue h2 =>
        match JValue.decEqFields ps qs with
        | Decidable.isTrue h3 => Decidable.isTrue (by rw [h1, h2, h3])
        | Decidable.isFalse h3 => Decidable.isFalse (fun h => h3 (List.cons.inj h).2)

end

instance : DecidableEq JValue := JValue.decEq

instance : BEq JValue := ⟨fun a b => decide (a = b)⟩

/-- Python exception kinds that the modelled code can raise. -/
inductive PyErr where
  | valueError : PyStr → PyErr
  | attributeError : PyStr → PyErr
  | typeError : PyStr → PyErr
  | indexError : PyStr → PyErr
  | keyError : PyStr → PyErr
  | ioError : PyStr → PyErr
  | apiError : PyStr → PyErr
deriving DecidableEq

/-- `str(e)` as used by the top-level handler's diagnostic. -/
def PyErr.msg : PyErr → PyStr
  | PyErr.valueError m => m
  | PyErr.attributeError m => m
  | PyErr.typeError m => m
  | PyErr.indexError m => m
  | PyErr.keyError m => m
  | PyErr.ioError m => m
  | PyErr.apiError m => m

deriving instance DecidableEq for Except

/-- First-match association lookup: Python dict lookup (keys are unique in a
dict built by `json.load`, so first-match agrees with dict semantics). -/
def pyLookup : List (String × JValue) → String → Option JValue
  | [], _ => none
  | p :: ps, k => if p.1 = k then some p.2 else pyLookup ps k

/-- Python `d.get(key, default)`: only dicts have `.get`; on any non-dict the
attribute lookup raises `AttributeError`. -/
def pyGetD (v : JValue) (key : String) (default : JValue) : Except PyErr JValue :=
  match v with
  | JValue.obj fields => Except.ok ((pyLookup fields key).getD default)
  | _ => Except.error (PyErr.attributeError (("object has no attribute get").toList))

/-- Python `d.get(key)`, i.e. `d.get(key, None)`. -/
def pyGet (v : JValue) (key : String) : Except PyErr JValue :=
  pyGetD v key JValue.null

/-- Contiguous-substring test on character lists (Python `needle in hay` for
strings). -/
def listHasSub (needle : List Char) : List Char → Bool
  | [] => needle.isEmpty
  | c :: t => needle.isPrefixOf (c :: t) || listHasSub needle t

/-- Python `key in v` for a string `key`: key membership on dicts, element
membership on lists, substring test on strings, `TypeError` otherwise. -/
def pyContains (v : JValue) (key : String) : Except PyErr Bool :=
  match v with
  | JValue.obj fields => Except.ok (fields.any (fun p => p.1 == key))
  | JValue.arr xs => Except.ok (xs.any (fun x => x == JValue.str key))
  | JValue.str s => Except.ok (listHasSub key.toList s.toList)
  | _ => Except.error (PyErr.typeError (("argument of type is not iterable").toList))

/-- Python iteration `for x in v`: list elements, string characters, dict
keys; `TypeError` on non-iterables. -/
def pyIterate (v : JValue) : Except PyErr (List JValue) :=
  match v with
  | JValue.arr xs => Except.ok xs
  | JValue.str s => Except.ok (s.toList.map (fun c => JValue.str (String.mk [c])))
  | JValue.obj fields => Except.ok (fields.map (fun p => JValue.str p.1))
  | _ => Except.error (PyErr.typeError (("object is not iterable").toList))

/-- Python `v[0]`: first element of a list (`IndexError` when empty), first
character of a string, `KeyError` on a string-keyed dict (the key `0` is an
int), `TypeError` otherwise. -/
def pySubscriptZero (v : JValue) : Except PyErr JValue :=
  match v with
  | JValue.arr [] => Except.error (PyErr.indexError (("list index out of range").toList))
  | JValue.arr (x :: _) => Except.ok x
  | JValue.str s =>
    match s.toList with
    | [] => Except.error (PyErr.indexError (("string index out of range").toList))
    | c :: _ => Except.ok (JValue.str (String.mk [c]))
  | JValue.obj _ => Except.error (PyErr.keyError (("0").toList))
  | _ => Except.error (PyErr.typeError (("object is not subscriptable").toList))

/-- One extracted failing-test record (the dict
`{'file': ..., 'test': ..., 'error': ...}` appended to `failures`). -/
structure Failure where
  file : JValue
  test : JValue
  error : JValue
deriving DecidableEq

/-- One iteration of the Vitest loop body of `analyze_test_failures`
(lines 93-99): returns `some` record when the entry has `status == 'failed'`,
`none` otherwise, propagating the Python exceptions the dynamic accesses
would raise. -/
def vitestEntry (test : JValue) : Except PyErr (Option Failure) :=
  match pyGet test "status" with
  | Except.error e => Except.error e
  | Except.ok status =>
    if status = JValue.str "failed" then
      match pyGet test "name" with
      | Except.error e => Except.error e
      | Except.ok file =>
        match pyGetD test "assertionResults" (JValue.arr [JValue.obj []]) with
        | Except.error e => Except.error e
        | Except.ok ar =>
          match pySubscriptZero ar with
          | Except.error e => Except.error e
          | Except.ok first =>
            match pyGetD first "title" (JValue.str "Unknown") with
            | Except.error e => Except.error e
            | Except.ok title =>
              match pyGetD test "message" (JValue.str "Unknown error") with
              | Except.error e => Except.error e
              | Except.ok msg => Except.ok (some ⟨file, title, msg⟩)
    else Except.ok none

/-- The Vitest loop of `analyze_test_failures` over the `testResults` list,
accumulating records in report order. -/
def vitestFailures : List JValue → Except PyErr (List Failure)
  | [] => Except.ok []
  | t :: ts =>
    match vitestEntry t with
    | Except.error e => Except.error e
    | Except.ok r =>
      match vitestFailures ts with
      | Except.error e => Except.error e
      | Except.ok rest =>
        match r with
        | some f => Except.ok (f :: rest)
        | none => Except.ok rest

/-- One iteration of the Playwright inner loop body (lines 103-109): a record
is appended exactly when `test.get('ok') is False`; the record takes its file
from the enclosing suite, its test from the spec title, and its error from
`test.get('error', {}).get('message', 'Unknown error')`. -/
def playwrightEntry (suite test : JValue) : Except PyErr (Option Failure) :=
  match pyGet test "ok" with
  | Except.error e => Except.error e
  | Except.ok okv =>
    if okv = JValue.bool false then
      match pyGet suite "file" with
      | Except.error e => Except.error e
      | Except.ok file =>
        match pyGet test "title" with
        | Except.error e => Except.error e
        | Except.ok title =>
          match pyGetD test "error" (JValue.obj []) with
          | Except.error e => Except.error e
          | Except.ok errObj =>
            match pyGetD errObj "message" (JValue.str "Unknown error") with
            | Except.error e => Except.error e
            | Except.ok msg => Except.ok (some ⟨file, title, msg⟩)
    else Except.ok none

/-- The Playwright inner loop over one suite's `specs` list. -/
def playwrightSpecFailures (suite : JValue) : List JValue → Except PyErr (List Failure)
  | [] => Except.ok []
  | t :: ts =>
    match playwrightEntry suite t with
    | Except.error e => Except.error e
    | Except.ok r =>
      match playwrightSpecFailures suite ts with
      | Except.error e => Except.error e
      | Except.ok rest =>
        match r with
        | some f => Except.ok (f :: rest)
        | none => Except.ok rest

/-- The Playwright outer loop over the `suites` list (lines 102-109). -/
def playwrightSuiteFailures : List JValue → Except PyErr (List Failure)
  | [] => Except.ok []
  | s :: ss =>
    match pyGetD s "specs" (JValue.arr []) with
    | Except.error e => Except.error e
    | Except.ok specsV =>
      match pyIterate specsV with
      | Except.error e => Except.error e
      | Except.ok specs =>
        match playwrightSpecFailures s specs with
        | Except.error e => Except.error e
        | Except.ok here =>
          match playwrightSuiteFailures ss with
          | Except.error e => Except.error e
          | Except.ok rest => Except.ok (here ++ rest)

/-- Failure extraction of `analyze_test_failures` (lines 89-109): Vitest shape
when the report contains `testResults`, otherwise Playwright shape when it
contains `suites`, otherwise the empty list. -/
def extract_failures (test_report : JValue) : Except PyErr (List Failure) :=
  match pyContains test_report "testResults" with
  | Except.error e => Except.error e
  | Except.ok true =>
    match pyGetD test_report "testResults" (JValue.arr []) with
    | Except.error e => Except.error e
    | Except.ok trs =>
      match pyIterate trs with
      | Except.error e => Except.error e
      | Except.ok tests => vitestFailures tests
  | Except.ok false =>
    match pyContains test_report "suites" with
    | Except.error e => Except.error e
    | Except.ok true =>
      match pyGetD test_report "suites" (JValue.arr []) with
      | Except.error e => Except.error e
      | Except.ok ss =>
        match pyIterate ss with
        | Except.error e => Except.error e
        | Except.ok suites => playwrightSuiteFailures suites
    | Except.ok false => Except.ok []

/-- Hex digit used by `\uXXXX` escapes in the JSON serializer. -/
def hexDigit (n : Nat) : Char :=
  if n < 10 then Char.ofNat (48 + n) else Char.ofNat (87 + n)

/-- A `\uXXXX` escape for a 16-bit value. -/
def uEscape (n : Nat) : PyStr :=
  '\\' :: 'u' :: [hexDigit (n / 4096 % 16), hexDigit (n / 256 % 16),
    hexDigit (n / 16 % 16), hexDigit (n % 16)]

/-- `json.dumps` escaping of one character (default `ensure_ascii=True`). -/
def jsonEscapeChar (c : Char) : PyStr :=
  if c = '"' then ['\\', '"']
  else if c = '\\' then ['\\', '\\']
  else if c = '\n' then ['\\', 'n']
  else if c = '\t' then ['\\', 't']
  else if c = '\r' then ['\\', 'r']
  else if c.toNat = 8 then ['\\', 'b']
  else if c.toNat = 12 then ['\\', 'f']
  else if c.toNat < 32 then uEscape c.toNat
  else if c.toNat < 127 then [c]
  else if c.toNat < 65536 then uEscape c.toNat
  else
    uEscape (55296 + (c.toNat - 65536) / 1024) ++ uEscape (56320 + (c.toNat - 65536) % 1024)

/-- `json.dumps` escaping of a whole string body. -/
def jsonEscapeStr (l : List Char) : PyStr :=
  l.foldr (fun c acc => jsonEscapeChar c ++ acc) []

/-- Indentation padding for `json.dumps(..., indent=2)`. -/
def indentPad (n : Nat) : PyStr := List.replicate n ' '

mutual

/-- `json.dumps(v, indent=2)` rendered at indentation level `ind`. -/
def dumpsVal (ind : Nat) : JValue → PyStr
  | JValue.null => ("null").toList
  | JValue.bool true => ("true").toList
  | JValue.bool false => ("false").toList
  | JValue.num n => (toString n).toList
  | JValue.str s => '"' :: (jsonEscapeStr s.toList ++ ['"'])
  | JValue.arr [] => ("[]").toList
  | JValue.arr (x :: xs) =>
    '[' :: '\n' :: (indentPad (ind + 2) ++ dumpsVal (ind + 2) x
      ++ dumpsArrRest (ind + 2) xs ++ '\n' :: (indentPad ind ++ [']']))
  | JValue.obj [] => ("\x7b\x7d").toList
  | JValue.obj (p :: ps) =>
    '\x7b' :: '\n' :: (indentPad (ind + 2) ++ dumpsPair (ind + 2) p
      ++ dumpsObjRest (ind + 2) ps ++ '\n' :: (indentPad ind ++ ['\x7d']))

/-- Remaining array items, each preceded by `,\n` and padding. -/
def dumpsArrRest (ind : Nat) : List JValue → PyStr
  | [] => []
  | x :: xs => ',' :: '\n' :: (indentPad ind ++ dumpsVal ind x ++ dumpsArrRest ind xs)

/-- One `"key": value` member. -/
def dumpsPair (ind : Nat) : String × JValue → PyStr
  | (k, v) => '"' :: (jsonEscapeStr k.toList ++ '"' :: ':' :: ' ' :: dumpsVal ind v)

/-- Remaining object members, each preceded by `,\n` and padding. -/
def dumpsObjRest (ind : Nat) : List (String × JValue) → PyStr
  | [] => []
  | p :: ps => ',' :: '\n' :: (indentPad ind ++ dumpsPair ind p ++ dumpsObjRest ind ps)

end

/-- The JSON value serialized into the test-analysis prompt: the failures as a
list of `{"file": ..., "test": ..., "error": ...}` objects, in list order. -/
def failuresJson (failures : List Failure) : JValue :=
  JValue.arr (failures.map (fun f =>
    JValue.obj [("file", f.file), ("test", f.test), ("error", f.error)]))

/-- Fixed prompt text of `generate_spec` before the interpolated title. -/
def specPromptA : PyStr :=
  ("You are a technical architect for Ora Admin Portal (Next.js 15 + TypeScript + Firebase).\n\nA feature request has been filed:\n\n**Title**: ").toList

/-- Fixed prompt text of `generate_spec` between title and body. -/
def specPromptB : PyStr := ("\n\n**Details**:\n").toList

/-- Fixed prompt text of `generate_spec` between body and codebase context. -/
def specPromptC : PyStr := ("\n\n**Codebase Context**:\n").toList

/-- Fixed prompt text of `generate_spec` after the truncated codebase context. -/
def specPromptD : PyStr :=
  ("\n\nGenerate a detailed technical specification including:\n\n1. **Overview**: High-level summary\n2. **Architecture & Design**: Components, data flow, patterns\n3. **API Contracts**: Endpoints, request/response schemas (TypeScript)\n4. **Data Models**: Firestore collections/documents with TypeScript interfaces\n5. **Security Considerations**: Firestore rules, permissions, validation\n6. **Performance Considerations**: Optimizations, caching, scaling\n7. **Testing Strategy**: Unit tests, integration tests, E2E scenarios\n8. **Implementation Tasks**: Concrete checklist for developers\n\nFormat in Markdown with TypeScript code blocks for schemas.\nBe specific and actionable. Reference existing patterns in the codebase.\n").toList

/-- The `generate_spec` prompt (lines 43-68): the codebase context is embedded
as `codebase_context[:4000]`. -/
def generate_spec_prompt (issue_title issue_body codebase_context : PyStr) : PyStr :=
  specPromptA ++ issue_title ++ specPromptB ++ issue_body ++ specPromptC
    ++ codebase_context.take 4000 ++ specPromptD

/-- Fixed prompt text of `analyze_test_failures` before the serialized
failures. -/
def analyzePromptA : PyStr :=
  ("You are debugging test failures in Ora Admin Portal (Next.js 15 + TypeScript + Firebase).\n\n**Test Failures**:\n```json\n").toList

/-- Fixed prompt text of `analyze_test_failures` after the serialized
failures. -/
def analyzePromptB : PyStr :=
  ("\n```\n\nFor each failure, provide:\n\n1. **Root Cause**: What\x27s likely causing this failure?\n2. **Suggested Fix**: Specific code changes to resolve it\n3. **Prevention**: How to prevent similar issues in the future\n\nFormat as Markdown with code blocks for suggested fixes.\nBe concise but specific. Reference TypeScript/React best practices.\n").toList

/-- The `analyze_test_failures` prompt (lines 114-129), embedding
`json.dumps(failures, indent=2)`. -/
def analyze_prompt (failures : List Failure) : PyStr :=
  analyzePromptA ++ dumpsVal 0 (failuresJson failures) ++ analyzePromptB

/-- Fixed prompt text of `review_pr` before the PR description. -/
def reviewPromptA : PyStr :=
  ("You are reviewing a Pull Request for Ora Admin Portal (Next.js 15 + TypeScript + Firebase).\n\n**PR Description**:\n").toList

/-- Fixed prompt text of `review_pr` between description and diff. -/
def reviewPromptB : PyStr := ("\n\n**Code Changes**:\n```diff\n").toList

/-- Fixed prompt text of `review_pr` after the truncated diff. -/
def reviewPromptC : PyStr :=
  ("\n```\n\nReview the code and provide:\n\n1. **Summary**: High-level assessment\n2. **Potential Issues**: Bugs, security concerns, performance problems\n3. **Suggestions**: Improvements for code quality, readability, maintainability\n4. **Security**: Any security considerations\n5. **Testing**: Are there sufficient tests?\n\nFormat as Markdown. Be constructive and specific.\nFocus on:\n- TypeScript type safety\n- React best practices\n- Firebase security (Firestore rules, sensitive data)\n- Error handling\n- Performance implications\n").toList

/-- The `review_pr` prompt (lines 150-175): the diff is embedded as
`diff[:8000]`. -/
def review_pr_prompt (diff pr_description : PyStr) : PyStr :=
  reviewPromptA ++ pr_description ++ reviewPromptB ++ diff.take 8000 ++ reviewPromptC

/-- The fixed success string returned when no failures are extracted
(line 112). -/
def noTestFailuresMsg : PyStr := ("✅ No test failures detected").toList

/-- The remote text-generation service, as an oracle from prompt to response
text (or a service/network error). -/
abbrev Service := PyStr → Except PyErr PyStr

/-- `ClaudeAssistant.generate_spec`: builds the prompt, makes exactly one
service call, returns the reply.  The second component records the prompts
sent over the network. -/
def generate_spec (service : Service) (issue_title issue_body codebase_context : PyStr) :
    Except PyErr PyStr × List PyStr :=
  let prompt := generate_spec_prompt issue_title issue_body codebase_context
  (service prompt, [prompt])

/-- `ClaudeAssistant.analyze_test_failures` (lines 78-137): extracts failures;
when the list is empty returns the fixed success string with no service call,
otherwise makes exactly one service call with the serialized failures. -/
def analyze_test_failures (service : Service) (test_report : JValue) :
    Except PyErr PyStr × List PyStr :=
  match extract_failures test_report with
  | Except.error e => (Except.error e, [])
  | Except.ok [] => (Except.ok noTestFailuresMsg, [])
  | Except.ok (f :: fs) =>
    let prompt := analyze_prompt (f :: fs)
    (service prompt, [prompt])

/-- `ClaudeAssistant.review_pr` (lines 139-183): builds the prompt with the
truncated diff and makes exactly one service call. -/
def review_pr (service : Service) (diff pr_description : PyStr) :
    Except PyErr PyStr × List PyStr :=
  let prompt := review_pr_prompt diff pr_description
  (service prompt, [prompt])

/-- The three subcommands accepted by the argument parser (line 191); any
other positional value is rejected by `argparse` before `main`'s `try` block
runs, so it is outside the modelled state space. -/
inductive Command where
  | spec : Command
  | testAnalysis : Command
  | prReview : Command
deriving DecidableEq

/-- Parsed CLI options (lines 193-199).  `argparse` yields `None` for an
omitted option, and option values are arbitrary strings. -/
structure Args where
  command : Command
  issue_title : Option PyStr
  issue_body : Option PyStr
  codebase_context : Option PyStr
  test_report : Option PyStr
  diff : Option PyStr
  pr_description : Option PyStr
  output : Option PyStr
deriving DecidableEq

/-- The process environment and the external systems `main` touches: the
`CLAUDE_API_KEY` variable, readable files (`none` means opening raises
`FileNotFoundError`), the `json.load` parser (`none` means it raises a decode
error) and the remote service. -/
structure Env where
  claude_api_key : Option PyStr
  files : PyStr → Option PyStr
  parseJson : PyStr → Option JValue
  service : Service

/-- Observable behaviour of one process run: exit code, lines printed to
stdout and stderr, file writes `(path, content)`, and prompts sent to the
remote service. -/
structure Outcome where
  exitCode : Nat
  stdout : List PyStr
  stderr : List PyStr
  fileWrites : List (PyStr × PyStr)
  networkCalls : List PyStr
deriving DecidableEq

/-- Python truthiness of an optional string: `None` and `""` are falsy. -/
def truthy : Option PyStr → Bool
  | none => false
  | some s => !s.isEmpty

/-- Python `a or b` on optional strings, as in
`api_key or os.environ.get('CLAUDE_API_KEY')`. -/
def pyOrStr : Option PyStr → Option PyStr → Option PyStr
  | some s, b => if s.isEmpty then b else some s
  | none, b => b

/-- Message of the `ValueError` raised by `ClaudeAssistant.__init__`. -/
def apiKeyErrMsg : PyStr := ("CLAUDE_API_KEY environment variable not set").toList

/-- `ClaudeAssistant.__init__` (lines 17-29): the key is the constructor
argument if truthy, else the environment variable; a falsy key raises
`ValueError` before any network activity. -/
def claudeAssistantInit (api_key env_key : Option PyStr) : Except PyErr PyStr :=
  match pyOrStr api_key env_key with
  | some s =>
    if s.isEmpty then Except.error (PyErr.valueError apiKeyErrMsg) else Except.ok s
  | none => Except.error (PyErr.valueError apiKeyErrMsg)

/-- `str` of the `FileNotFoundError` for a path, as printed by the top-level
handler. -/
def fileNotFoundMsg (path : PyStr) : PyStr :=
  ("[Errno 2] No such file or directory: \x27").toList ++ path ++ ("\x27").toList

/-- `str` of the `json.JSONDecodeError` raised by `json.load` on malformed
input (position details abstracted). -/
def jsonDecodeErrMsg : PyStr := ("Expecting value: line 1 column 1 (char 0)").toList

/-- `open(path, 'r').read()`: contents, or `FileNotFoundError`. -/
def readFileOr (env : Env) (path : PyStr) : Except PyErr PyStr :=
  match env.files path with
  | some c => Except.ok c
  | none => Except.error (PyErr.ioError (fileNotFoundMsg path))

/-- In-subcommand missing-input exit (e.g. lines 208-210): one message on
stderr, `sys.exit(1)`; `SystemExit` is not an `Exception`, so the top-level
handler does not run. -/
def missingExit (msg : PyStr) : Outcome := ⟨1, [], [msg], [], []⟩

/-- The failure marker prepended by the top-level handler (line 248). -/
def errMarker : PyStr := ("❌ Error: ").toList

/-- Top-level `except Exception` handler (lines 247-249): one diagnostic line
with the failure marker on stderr, exit code 1. -/
def errExit (e : PyErr) (calls : List PyStr) : Outcome :=
  ⟨1, [], [errMarker ++ e.msg], [], calls⟩

/-- The confirmation line printed after writing `--output` (line 243). -/
def outputConfirmMsg (path : PyStr) : PyStr := ("✅ Output written to ").toList ++ path

/-- Result emission (lines 240-245): with a truthy `--output` the result is
written to the file (overwriting) and only the confirmation line goes to
stdout; otherwise the result itself is printed to stdout. -/
def emitResult : Option PyStr → PyStr → List PyStr → Outcome
  | some path, result, calls =>
    if path.isEmpty then ⟨0, [result], [], [], calls⟩
    else ⟨0, [outputConfirmMsg path], [], [(path, result)], calls⟩
  | none, result, calls => ⟨0, [result], [], [], calls⟩

/-- The `MissingInput` message of the `spec` subcommand (line 209). -/
def specMissingInputMsg : PyStr :=
  ("Error: --issue-title and --issue-body required for spec generation").toList

/-- The `MissingInput` message of the `test-analysis` subcommand (line 221). -/
def taMissingInputMsg : PyStr :=
  ("Error: --test-report required for test analysis").toList

/-- The `MissingInput` message of the `pr-review` subcommand (line 231). -/
def prMissingInputMsg : PyStr :=
  ("Error: --diff and --pr-description required for PR review").toList

/-- `codebase_context = ""` then a file read only when `--codebase-context`
is truthy (lines 212-215). -/
def readCodebaseContext (args : Args) (env : Env) : Except PyErr PyStr :=
  match args.codebase_context with
  | some p => if p.isEmpty then Except.ok [] else readFileOr env p
  | none => Except.ok []

/-- Dispatch of one operation call's result (`result = assistant...(...)` then
lines 240-245): a raised service error reaches the top-level handler, a
returned text is emitted; either way the prompts already sent are recorded. -/
def dispatchResult (out : Option PyStr) (call : Except PyErr PyStr × List PyStr) : Outcome :=
  match call.1 with
  | Except.error e => errExit e call.2
  | Except.ok result => emitResult out result call.2

/-- The `spec` branch of `main` (lines 207-217). -/
def runSpec (args : Args) (env : Env) : Outcome :=
  match args.issue_title, args.issue_body with
  | some t, some b =>
    if t.isEmpty || b.isEmpty then missingExit specMissingInputMsg
    else
      match readCodebaseContext args env with
      | Except.error e => errExit e []
      | Except.ok ctx =>
        dispatchResult args.output (generate_spec env.service t b ctx)
  | _, _ => missingExit specMissingInputMsg

/-- The `test-analysis` branch of `main` (lines 219-227). -/
def runTestAnalysis (args : Args) (env : Env) : Outcome :=
  match args.test_report with
  | none => missingExit taMissingInputMsg
  | some p =>
    if p.isEmpty then missingExit taMissingInputMsg
    else
      match readFileOr env p with
      | Except.error e => errExit e []
      | Except.ok content =>
        match env.parseJson content with
        | none => errExit (PyErr.valueError jsonDecodeErrMsg) []
        | some report =>
          dispatchResult args.output (analyze_test_failures env.service report)

/-- The `pr-review` branch of `main` (lines 229-237). -/
def runPrReview (args : Args) (env : Env) : Outcome :=
  match args.diff, args.pr_description with
  | some p, some d =>
    if p.isEmpty || d.isEmpty then missingExit prMissingInputMsg
    else
      match readFileOr env p with
      | Except.error e => errExit e []
      | Except.ok diff =>
        dispatchResult args.output (review_pr env.service diff d)
  | _, _ => missingExit prMissingInputMsg

/-- `main` (lines 186-249): the assistant is constructed (credential check)
before any subcommand logic; every `Exception` escaping the `try` block is
reported once by the top-level handler with exit code 1. -/
def runMain (args : Args) (env : Env) : Outcome :=
  match claudeAssistantInit none env.claude_api_key with
  | Except.error e => errExit e []
  | Except.ok _ =>
    match args.command with
    | Command.spec => runSpec args env
    | Command.testAnalysis => runTestAnalysis args env
    | Command.prReview => runPrReview args env

/-- The record (if any) that the Vitest loop appends for one entry, ignoring
raised exceptions (used to state order preservation for reports whose entries
all extract without error). -/
def vitestRecordOf (t : JValue) : Option Failure :=
  match vitestEntry t with
  | Except.ok r => r
  | Except.error _ => none

/-- The error-propagation discipline of `main`: exit code 0 or 1; on failure
exactly one stderr diagnostic (either the top-level handler's marked line or
one of the three in-place missing-input lines), nothing on stdout and no file
written; on success nothing on stderr; never more than one service call. -/
def SaneOutcome (o : Outcome) : Prop :=
  (o.exitCode = 0 ∨ o.exitCode = 1)
  ∧ (o.exitCode = 1 → o.stdout = [] ∧ o.fileWrites = [] ∧
      ∃ m, o.stderr = [m] ∧
        (m.take 9 = errMarker ∨ m = specMissingInputMsg ∨ m = taMissingInputMsg
          ∨ m = prMissingInputMsg))
  ∧ (o.exitCode = 0 → o.stderr = [])
  ∧ o.networkCalls.length ≤ 1

/-- A concrete invocation: `spec` with `--issue-body` but no `--issue-title`,
credential present. -/
def c6Args : Args :=
  ⟨Command.spec, none, some (("B").toList), none, none, none, none, none⟩

/-- A concrete environment for `c6Args`: key set, no readable files, parser
and service stubs. -/
def c6Env : Env :=
  ⟨some (("k").toList), fun _ => none, fun _ => none, fun _ => Except.ok []⟩

theorem pyLookup_imp_any (fields : List (String × JValue)) (k : String) (v : JValue)
    (h : pyLookup fields k = some v) : fields.any (fun p => p.1 == k) = true := by
  induction fields with
  | nil => simp [pyLookup] at h
  | cons p ps ih =>
    rw [pyLookup] at h
    by_cases hk : p.1 = k
    · simp [List.any_cons, hk]
    · rw [if_neg hk] at h
      simp [List.any_cons, ih h]

theorem vitestFailures_all_none (ts : List JValue)
    (h : ∀ t ∈ ts, vitestEntry t = Except.ok none) :
    vitestFailures ts = Except.ok [] := by
  induction ts with
  | nil => rfl
  | cons t ts ih =>
    rw [vitestFailures, h t (by simp), ih (fun t' ht' => h t' (by simp [ht']))]

theorem playwrightEntry_not_failed (suite : JValue) (tf : List (String × JValue))
    (h : pyLookup tf "ok" ≠ some (JValue.bool false)) :
    playwrightEntry suite (JValue.obj tf) = Except.ok none := by
  have hne : ((pyLookup tf "ok").getD JValue.null) ≠ JValue.bool false := by
    cases hl : pyLookup tf "ok" with
    | none => simp
    | some v =>
      simp only [Option.getD_some]
      intro hv
      exact h (by rw [hl, hv])
  rw [playwrightEntry, pyGet, pyGetD]
  simp [hne]

theorem playwrightSpecFailures_all_none (suite : JValue) (ts : List JValue)
    (h : ∀ t ∈ ts, playwrightEntry suite t = Except.ok none) :
    playwrightSpecFailures suite ts = Except.ok [] := by
  induction ts with
  | nil => rfl
  | cons t ts ih =>
    rw [playwrightSpecFailures, h t (by simp), ih (fun t' ht' => h t' (by simp [ht']))]

theorem playwrightSuiteFailures_all_pass (suites : List JValue)
    (h : ∀ s ∈ suites, ∃ sf specs, s = JValue.obj sf
      ∧ (pyLookup sf "specs").getD (JValue.arr []) = JValue.arr specs
      ∧ ∀ t ∈ specs, ∃ tf, t = JValue.obj tf ∧ pyLookup tf "ok" ≠ some (JValue.bool false)) :
    playwrightSuiteFailures suites = Except.ok [] := by
  induction suites with
  | nil => rfl
  | cons s ss ih =>
    obtain ⟨sf, specs, hs, hsp, hts⟩ := h s (by simp)
    subst hs
    have hinner : playwrightSpecFailures (JValue.obj sf) specs = Except.ok [] := by
      refine playwrightSpecFailures_all_none _ _ (fun t ht => ?_)
      obtain ⟨tf, htf, hok⟩ := hts t ht
      subst htf
      exact playwrightEntry_not_failed _ _ hok
    simp only [playwrightSuiteFailures, pyGetD, hsp, pyIterate, hinner,
      ih (fun s' hs' => h s' (by simp [hs'])), List.nil_append]

theorem vitestRecordOf_eq (t : JValue) (r : Option Failure)
    (h : vitestEntry t = Except.ok r) : vitestRecordOf t = r := by
  rw [vitestRecordOf, h]

theorem vitestFailures_eq_filterMap (tests : List JValue)
    (h : ∀ t ∈ tests, ∃ r, vitestEntry t = Except.ok r) :
    vitestFailures tests = Except.ok (tests.filterMap vitestRecordOf) := by
  induction tests with
  | nil => rfl
  | cons t ts ih =>
    obtain ⟨r, hr⟩ := h t (by simp)
    have ihh := ih (fun t' ht' => h t' (by simp [ht']))
    cases r with
    | none =>
      rw [vitestFailures, hr, ihh, List.filterMap_cons, vitestRecordOf_eq t none hr]
    | some f =>
      rw [vitestFailures, hr, ihh, List.filterMap_cons, vitestRecordOf_eq t (some f) hr]

theorem vitestEntry_isSome_iff (t : JValue) (r : Option Failure)
    (h : vitestEntry t = Except.ok r) :
    (r.isSome = true ↔ pyGet t "status" = Except.ok (JValue.str "failed")) := by
  rw [vitestEntry] at h
  cases hs : pyGet t "status" with
  | error e => simp only [hs] at h; exact absurd h (by simp)
  | ok status =>
    simp only [hs] at h
    by_cases hf : status = JValue.str "failed"
    · subst hf
      rw [if_pos rfl] at h
      constructor
      · intro _; rfl
      · intro _
        cases h1 : pyGet t "name" with
        | error e => simp only [h1] at h; exact absurd h (by simp)
        | ok file =>
          simp only [h1] at h
          cases h2 : pyGetD t "assertionResults" (JValue.arr [JValue.obj []]) with
          | error e => simp only [h2] at h; exact absurd h (by simp)
          | ok ar =>
            simp only [h2] at h
            cases h3 : pySubscriptZero ar with
            | error e => simp only [h3] at h; exact absurd h (by simp)
            | ok first =>
              simp only [h3] at h
              cases h4 : pyGetD first "title" (JValue.str "Unknown") with
              | error e => simp only [h4] at h; exact absurd h (by simp)
              | ok title =>
                simp only [h4] at h
                cases h5 : pyGetD t "message" (JValue.str "Unknown error") with
                | error e => simp only [h5] at h; exact absurd h (by simp)
                | ok msg =>
                  simp only [h5] at h
                  cases h
                  rfl
    · rw [if_neg hf] at h
      cases h
      simp only [Option.isSome_none, Bool.false_eq_true, false_iff]
      intro hc
      exact hf (Except.ok.inj hc)

theorem claudeAssistantInit_ok_of_truthy (k : Option PyStr) (h : truthy k = true) :
    ∃ s, claudeAssistantInit none k = Except.ok s := by
  cases k with
  | none => simp [truthy] at h
  | some s =>
    rw [truthy, Bool.not_eq_true'] at h
    exact ⟨s, by simp [claudeAssistantInit, pyOrStr, h]⟩

theorem claudeAssistantInit_err_of_falsy (ak ek : Option PyStr)
    (hak : truthy ak = false) (hek : truthy ek = false) :
    claudeAssistantInit ak ek = Except.error (PyErr.valueError apiKeyErrMsg) := by
  have hek' : claudeAssistantInit none ek = Except.error (PyErr.valueError apiKeyErrMsg) := by
    cases ek with
    | none => rfl
    | some s =>
      rw [truthy, Bool.not_eq_false'] at hek
      simp [claudeAssistantInit, pyOrStr, hek]
  cases ak with
  | none => exact hek'
  | some s =>
    rw [truthy, Bool.not_eq_false'] at hak
    simp only [claudeAssistantInit, pyOrStr] at hek' ⊢
    simpa [hak] using hek'

theorem sane_errExit (e : PyErr) (calls : List PyStr) (h : calls.length ≤ 1) :
    SaneOutcome (errExit e calls) := by
  unfold SaneOutcome errExit
  refine ⟨Or.inr rfl, ?_, ?_, h⟩
  · intro _
    refine ⟨rfl, rfl, errMarker ++ e.msg, rfl, Or.inl ?_⟩
    have h9 : errMarker.length = 9 := rfl
    rw [← h9]
    exact List.take_left _ _
  · intro h0
    simp at h0

theorem sane_missingExit (m : PyStr)
    (hm : m = specMissingInputMsg ∨ m = taMissingInputMsg ∨ m = prMissingInputMsg) :
    SaneOutcome (missingExit m) := by
  unfold SaneOutcome missingExit
  refine ⟨Or.inr rfl, ?_, ?_, by simp⟩
  · intro _
    exact ⟨rfl, rfl, m, rfl, Or.inr hm⟩
  · intro h0
    simp at h0

theorem sane_emitResult (o : Option PyStr) (r : PyStr) (calls : List PyStr)
    (h : calls.length ≤ 1) : SaneOutcome (emitResult o r calls) := by
  have hz : ∀ so fw, SaneOutcome (⟨0, so, [], fw, calls⟩ : Outcome) := by
    intro so fw
    unfold SaneOutcome
    refine ⟨Or.inl rfl, ?_, fun _ => rfl, h⟩
    intro h1
    simp at h1
  cases o with
  | none => exact hz _ _
  | some path =>
    rw [emitResult]
    by_cases hp : path.isEmpty
    · rw [if_pos hp]; exact hz _ _
    · rw [if_neg hp]; exact hz _ _

theorem emitResult_networkCalls (o : Option PyStr) (r : PyStr) (calls : List PyStr) :
    (emitResult o r calls).networkCalls = calls := by
  cases o with
  | none => rfl
  | some p =>
    rw [emitResult]
    split <;> rfl

theorem dispatchResult_networkCalls (out : Option PyStr)
    (call : Except PyErr PyStr × List PyStr) :
    (dispatchResult out call).networkCalls = call.2 := by
  rw [dispatchResult]
  split
  · rfl
  · exact emitResult_networkCalls _ _ _

theorem sane_dispatchResult (out : Option PyStr) (call : Except PyErr PyStr × List PyStr)
    (h : call.2.length ≤ 1) : SaneOutcome (dispatchResult out call) := by
  rw [dispatchResult]
  split
  · exact sane_errExit _ _ h
  · exact sane_emitResult _ _ _ h

theorem sane_runSpec (args : Args) (env : Env) : SaneOutcome (runSpec args env) := by
  rw [runSpec]
  split
  · split
    · exact sane_missingExit _ (Or.inl rfl)
    · split
      · exact sane_errExit _ _ (by simp)
      · exact sane_dispatchResult _ _ (by simp [generate_spec])
  · exact sane_missingExit _ (Or.inl rfl)

theorem sane_runTestAnalysis (args : Args) (env : Env) :
    SaneOutcome (runTestAnalysis args env) := by
  rw [runTestAnalysis]
  split
  · exact sane_missingExit _ (Or.inr (Or.inl rfl))
  · split
    · exact sane_missingExit _ (Or.inr (Or.inl rfl))
    · split
      · exact sane_errExit _ _ (by simp)
      · split
        · exact sane_errExit _ _ (by simp)
        · rename_i content report hrep
          refine sane_dispatchResult _ _ ?_
          rw [analyze_test_failures]
          split <;> simp

theorem sane_runPrReview (args : Args) (env : Env) : SaneOutcome (runPrReview args env) := by
  rw [runPrReview]
  split
  · split
    · exact sane_missingExit _ (Or.inr (Or.inr rfl))
    · split
      · exact sane_errExit _ _ (by simp)
      · exact sane_dispatchResult _ _ (by simp [review_pr])
  · exact sane_missingExit _ (Or.inr (Or.inr rfl))

theorem runPrReview_calls_service_indep (args : Args) (key : Option PyStr)
    (files : PyStr → Option PyStr) (pj : PyStr → Option JValue) (s1 s2 : Service) :
    (runPrReview args ⟨key, files, pj, s1⟩).networkCalls
      = (runPrReview args ⟨key, files, pj, s2⟩).networkCalls := by
  simp only [runPrReview]
  cases args.diff with
  | none => rfl
  | some p =>
    cases args.pr_description with
    | none => rfl
    | some d =>
      dsimp only
      by_cases hpd : (p.isEmpty || d.isEmpty) = true
      · rw [if_pos hpd, if_pos hpd]
      · rw [if_neg hpd, if_neg hpd]
        simp only [readFileOr]
        cases files p with
        | none => rfl
        | some content =>
          rw [dispatchResult_networkCalls, dispatchResult_networkCalls]
          rfl

/-- C1: whenever failure extraction yields zero records — in particular a
`testResults` report with no failed entry, an object report in neither
recognized shape, and a `suites` report in which no spec has `ok` exactly
`false` — `analyze_test_failures` returns exactly the fixed success string and
sends nothing to the remote service. -/
theorem analyze_zero_failures_short_circuit (service : Service) (report : JValue)
    (h : extract_failures report = Except.ok []) :
    analyze_test_failures service report = (Except.ok noTestFailuresMsg, [])
    ∧ extract_failures (JValue.obj [("testResults", JValue.arr [])]) = Except.ok []
    ∧ (∀ fields : List (String × JValue),
        fields.any (fun p => p.1 == "testResults") = false →
        fields.any (fun p => p.1 == "suites") = false →
        extract_failures (JValue.obj fields) = Except.ok [])
    ∧ (∀ (fields : List (String × JValue)) (suites : List JValue),
        fields.any (fun p => p.1 == "testResults") = false →
        pyLookup fields "suites" = some (JValue.arr suites) →
        (∀ s ∈ suites, ∃ sf specs, s = JValue.obj sf
          ∧ (pyLookup sf "specs").getD (JValue.arr []) = JValue.arr specs
          ∧ ∀ t ∈ specs, ∃ tf, t = JValue.obj tf ∧ pyLookup tf "ok" ≠ some (JValue.bool false)) →
        extract_failures (JValue.obj fields) = Except.ok []) := by
  refine ⟨?_, by decide, ?_, ?_⟩
  · simp only [analyze_test_failures, h]
  · intro fields h1 h2
    simp only [extract_failures, pyContains, h1, h2]
  · intro fields suites h1 hlk hall
    have h2 : fields.any (fun p => p.1 == "suites") = true := pyLookup_imp_any fields _ _ hlk
    simp only [extract_failures, pyContains, h1, h2, pyGetD, hlk, Option.getD_some, pyIterate]
    exact playwrightSuiteFailures_all_pass suites hall

/-- C2: for a `testResults`-shaped report all of whose entries extract without
a raised exception, the Failure List is exactly one record per entry with
`status == "failed"`, in report order (`filterMap` over the entry list), and
an entry contributes a record precisely when its status is the string
`"failed"`. -/
theorem vitest_one_record_per_failing_entry (fields : List (String × JValue))
    (tests : List JValue)
    (hlk : pyLookup fields "testResults" = some (JValue.arr tests))
    (hok : ∀ t ∈ tests, ∃ r, vitestEntry t = Except.ok r) :
    extract_failures (JValue.obj fields) = Except.ok (tests.filterMap vitestRecordOf)
    ∧ ∀ t ∈ tests, ((vitestRecordOf t).isSome = true
        ↔ pyGet t "status" = Except.ok (JValue.str "failed")) := by
  constructor
  · have hany := pyLookup_imp_any fields _ _ hlk
    simp only [extract_failures, pyContains, hany, pyGetD, hlk, Option.getD_some, pyIterate]
    exact vitestFailures_eq_filterMap tests hok
  · intro t ht
    obtain ⟨r, hr⟩ := hok t ht
    rw [vitestRecordOf_eq t r hr]
    exact vitestEntry_isSome_iff t r hr

/-- C9: in the `suites` shape a spec contributes a record exactly when its
`ok` field is present and exactly `false` (missing `ok` or any other value is
never counted); the record takes its file from the enclosing suite, its test
from the spec title, and its error from the error message, defaulting to
"Unknown error" when the error object or its message is absent. -/
theorem playwright_spec_entry_rule (sf tf : List (String × JValue)) :
    (pyLookup tf "ok" ≠ some (JValue.bool false) →
      playwrightEntry (JValue.obj sf) (JValue.obj tf) = Except.ok none)
    ∧ (pyLookup tf "ok" = some (JValue.bool false) → pyLookup tf "error" = none →
      playwrightEntry (JValue.obj sf) (JValue.obj tf) = Except.ok (some
        ⟨(pyLookup sf "file").getD JValue.null, (pyLookup tf "title").getD JValue.null,
          JValue.str "Unknown error"⟩))
    ∧ (∀ ef : List (String × JValue), pyLookup tf "ok" = some (JValue.bool false) →
      pyLookup tf "error" = some (JValue.obj ef) →
      playwrightEntry (JValue.obj sf) (JValue.obj tf) = Except.ok (some
        ⟨(pyLookup sf "file").getD JValue.null, (pyLookup tf "title").getD JValue.null,
          (pyLookup ef "message").getD (JValue.str "Unknown error")⟩)) := by
  refine ⟨playwrightEntry_not_failed _ tf, ?_, ?_⟩
  · intro hok herr
    simp only [playwrightEntry, pyGet, pyGetD, hok, herr, Option.getD_some,
      Option.getD_none, if_pos rfl]
    simp [pyLookup]
  · intro ef hok herr
    simp only [playwrightEntry, pyGet, pyGetD, hok, herr, Option.getD_some, if_pos rfl]
    simp

/-- C3: the codebase context is embedded in the `spec` prompt truncated to at
most 4000 characters and the diff in the `pr-review` prompt truncated to at
most 8000; a longer diff is cut to exactly 8000 characters, and inputs at or
under the budget are embedded unchanged. -/
theorem prompt_truncation_budgets
    (issue_title issue_body codebase_context diff pr_description : PyStr) :
    generate_spec_prompt issue_title issue_body codebase_context
      = specPromptA ++ issue_title ++ specPromptB ++ issue_body ++ specPromptC
        ++ codebase_context.take 4000 ++ specPromptD
    ∧ review_pr_prompt diff pr_description
      = reviewPromptA ++ pr_description ++ reviewPromptB ++ diff.take 8000 ++ reviewPromptC
    ∧ (codebase_context.take 4000).length ≤ 4000
    ∧ (codebase_context.length ≤ 4000 → codebase_context.take 4000 = codebase_context)
    ∧ (diff.take 8000).length ≤ 8000
    ∧ (diff.length ≤ 8000 → diff.take 8000 = diff)
    ∧ (8000 < diff.length → (diff.take 8000).length = 8000) := by
  refine ⟨rfl, rfl, ?_, fun h => List.take_of_length_le h, ?_,
    fun h => List.take_of_length_le h, ?_⟩
  · simp [List.length_take]
  · simp [List.length_take]
  · intro h
    simp only [List.length_take]
    omega

/-- C8: the `pr-review` request payload is a deterministic function of the
diff and description — identical across runs and independent of the remote
service's behaviour, both at the `review_pr` operation and through the whole
`pr-review` CLI branch. -/
theorem review_payload_deterministic (s1 s2 : Service) (diff pr_description : PyStr) :
    (review_pr s1 diff pr_description).2 = (review_pr s2 diff pr_description).2
    ∧ (review_pr s1 diff pr_description).2 = [review_pr_prompt diff pr_description]
    ∧ (∀ (args : Args) (key : Option PyStr) (files : PyStr → Option PyStr)
        (pj : PyStr → Option JValue),
        (runPrReview args ⟨key, files, pj, s1⟩).networkCalls
          = (runPrReview args ⟨key, files, pj, s2⟩).networkCalls) :=
  ⟨rfl, rfl, fun args key files pj => runPrReview_calls_service_indep args key files pj s1 s2⟩

/-- C4: with a credential available, a `spec` invocation whose issue title or
issue body is absent or empty stops with the missing-input diagnostic on
stderr, exit code 1, no output, no file write, and no call to the remote
service. -/
theorem spec_missing_input_exits_one_no_network (args : Args) (env : Env)
    (hkey : truthy env.claude_api_key = true)
    (hcmd : args.command = Command.spec)
    (hmiss : truthy args.issue_title = false ∨ truthy args.issue_body = false) :
    runMain args env = ⟨1, [], [specMissingInputMsg], [], []⟩ := by
  obtain ⟨s, hs⟩ := claudeAssistantInit_ok_of_truthy _ hkey
  simp only [runMain, hs, hcmd]
  rw [runSpec]
  cases ht : args.issue_title with
  | none => rfl
  | some t =>
    cases hb : args.issue_body with
    | none => rfl
    | some b =>
      have hcond : (t.isEmpty || b.isEmpty) = true := by
        rcases hmiss with hm | hm
        · rw [ht, truthy, Bool.not_eq_false'] at hm
          simp [hm]
        · rw [hb, truthy, Bool.not_eq_false'] at hm
          simp [hm]
      dsimp only
      rw [if_pos hcond]
      rfl

/-- C5: with no key from the constructor argument or the environment, the
assistant constructor raises the configuration error, and any invocation
terminates with exit code 1 and the marked diagnostic before any network
activity (no service call is recorded). -/
theorem missing_api_key_fails_before_network (args : Args) (env : Env)
    (hkey : truthy env.claude_api_key = false) :
    (∀ ak ek : Option PyStr, truthy ak = false → truthy ek = false →
      claudeAssistantInit ak ek = Except.error (PyErr.valueError apiKeyErrMsg))
    ∧ runMain args env = ⟨1, [], [errMarker ++ apiKeyErrMsg], [], []⟩ := by
  refine ⟨claudeAssistantInit_err_of_falsy, ?_⟩
  have h := claudeAssistantInit_err_of_falsy none env.claude_api_key rfl hkey
  simp only [runMain, h]
  rfl

/-- C10: the credential check precedes subcommand input validation — with no
key available every invocation, whatever its other arguments, fails with the
configuration diagnostic (never one of the missing-input messages), exit code
1 and no network call. -/
theorem credential_check_precedes_input_validation (args : Args) (env : Env)
    (hkey : truthy env.claude_api_key = false) :
    (runMain args env).stderr = [errMarker ++ apiKeyErrMsg]
    ∧ errMarker ++ apiKeyErrMsg ≠ specMissingInputMsg
    ∧ errMarker ++ apiKeyErrMsg ≠ taMissingInputMsg
    ∧ errMarker ++ apiKeyErrMsg ≠ prMissingInputMsg
    ∧ (runMain args env).exitCode = 1
    ∧ (runMain args env).networkCalls = [] := by
  have h := claudeAssistantInit_err_of_falsy none env.claude_api_key rfl hkey
  simp only [runMain, h]
  exact ⟨rfl, by decide, by decide, by decide, rfl, rfl⟩

/-- C7: a valid `spec` run with `--output path` and the service stubbed to
return "OK" writes exactly "OK" to the file, prints only the confirmation line
referencing the path to stdout (the response itself is not printed), and makes
exactly one service call. -/
theorem output_file_written_with_confirmation (env : Env) (t b path : PyStr)
    (hkey : truthy env.claude_api_key = true)
    (ht : t.isEmpty = false) (hb : b.isEmpty = false) (hpath : path.isEmpty = false)
    (hsvc : ∀ p, env.service p = Except.ok (("OK").toList)) :
    runMain ⟨Command.spec, some t, some b, none, none, none, none, some path⟩ env =
      ⟨0, [outputConfirmMsg path], [], [(path, ("OK").toList)],
        [generate_spec_prompt t b []]⟩ := by
  obtain ⟨s, hs⟩ := claudeAssistantInit_ok_of_truthy _ hkey
  simp only [runMain, hs]
  rw [runSpec]
  dsimp only
  rw [if_neg (by simp [ht, hb])]
  simp only [readCodebaseContext]
  simp only [generate_spec, dispatchResult, hsvc]
  simp only [emitResult, hpath]
  rfl

/-- C6 (amended): every run exits with code 0 or 1; every failing run leaves
exactly one diagnostic line on stderr — the top-level handler's marked line,
or one of the three in-place missing-input lines, which carry no marker —
with nothing on stdout, no file written and no retry (at most one service
call); successful runs leave stderr empty. -/
theorem errors_single_diagnostic_exit_one (args : Args) (env : Env) :
    SaneOutcome (runMain args env) := by
  rw [runMain]
  split
  · exact sane_errExit _ _ (by simp)
  · split
    · exact sane_runSpec args env
    · exact sane_runTestAnalysis args env
    · exact sane_runPrReview args env

/-- C6 (counterexample): a `spec` run missing `--issue-title` (credential
present) fails via the in-place check: its single stderr line is the
missing-input message, which does not begin with the top-level handler's
failure marker, so not every error is caught and marked at top level. -/
theorem missing_input_lacks_failure_marker :
    (runMain c6Args c6Env).exitCode = 1
    ∧ (runMain c6Args c6Env).stderr = [specMissingInputMsg]
    ∧ (runMain c6Args c6Env).networkCalls = []
    ∧ specMissingInputMsg.take 9 ≠ errMarker := by decide

/-- Witness for C1 at the report `{"testResults": []}`. -/
theorem analyze_zero_failures_short_circuit_witness :
    analyze_test_failures (fun _ => Except.ok [])
        (JValue.obj [("testResults", JValue.arr [])])
      = (Except.ok noTestFailuresMsg, []) :=
  (analyze_zero_failures_short_circuit (fun _ => Except.ok [])
    (JValue.obj [("testResults", JValue.arr [])]) (by decide)).1

/-- Witness for C2 at a one-entry failing report. -/
theorem vitest_one_record_per_failing_entry_witness :
    extract_failures
        (JValue.obj [("testResults", JValue.arr [JValue.obj [("status", JValue.str "failed")]])])
      = Except.ok ([JValue.obj [("status", JValue.str "failed")]].filterMap vitestRecordOf) :=
  (vitest_one_record_per_failing_entry _ _ (by decide) (by
    intro t ht
    simp only [List.mem_singleton] at ht
    subst ht
    exact ⟨some ⟨JValue.null, JValue.str "Unknown", JValue.str "Unknown error"⟩, by decide⟩)).1

/-- Witness for C3 at concrete strings. -/
theorem prompt_truncation_budgets_witness :
    generate_spec_prompt [] [] (("abc").toList)
      = specPromptA ++ [] ++ specPromptB ++ [] ++ specPromptC
        ++ (("abc").toList).take 4000 ++ specPromptD :=
  (prompt_truncation_budgets [] [] (("abc").toList) [] []).1

/-- Witness for C4: `spec` with a body but no title, key present. -/
theorem spec_missing_input_exits_one_no_network_witness :
    runMain ⟨Command.spec, none, some (("B").toList), none, none, none, none, none⟩
        ⟨some (("k").toList), fun _ => none, fun _ => none, fun _ => Except.ok []⟩
      = ⟨1, [], [specMissingInputMsg], [], []⟩ :=
  spec_missing_input_exits_one_no_network _ _ (by decide) rfl (Or.inl (by decide))

/-- Witness for C5: no key in the environment. -/
theorem missing_api_key_fails_before_network_witness :
    runMain ⟨Command.spec, some (("T").toList), some (("B").toList), none, none, none, none, none⟩
        ⟨none, fun _ => none, fun _ => none, fun _ => Except.ok []⟩
      = ⟨1, [], [errMarker ++ apiKeyErrMsg], [], []⟩ :=
  (missing_api_key_fails_before_network
    ⟨Command.spec, some (("T").toList), some (("B").toList), none, none, none, none, none⟩
    ⟨none, fun _ => none, fun _ => none, fun _ => Except.ok []⟩ rfl).2

/-- Witness for C7: concrete valid spec run with `--output`. -/
theorem output_file_written_with_confirmation_witness :
    runMain ⟨Command.spec, some (("T").toList), some (("B").toList), none, none, none, none,
        some (("out.md").toList)⟩
      ⟨some (("k").toList), fun _ => none, fun _ => none, fun _ => Except.ok (("OK").toList)⟩
      = ⟨0, [outputConfirmMsg (("out.md").toList)], [],
          [((("out.md").toList), ("OK").toList)],
          [generate_spec_prompt (("T").toList) (("B").toList) []]⟩ :=
  output_file_written_with_confirmation _ _ _ _ (by decide) rfl rfl rfl (fun _ => rfl)

/-- Witness for C8 at concrete service stubs and inputs. -/
theorem review_payload_deterministic_witness :
    (review_pr (fun _ => Except.ok []) (("d").toList) (("p").toList)).2
      = [review_pr_prompt (("d").toList) (("p").toList)] :=
  (review_payload_deterministic (fun _ => Except.ok [])
    (fun _ => Except.error (PyErr.apiError [])) (("d").toList) (("p").toList)).2.1

/-- Witness for C9: a spec whose `ok` is `true` contributes nothing. -/
theorem playwright_spec_entry_rule_witness :
    playwrightEntry (JValue.obj []) (JValue.obj [("ok", JValue.bool true)]) = Except.ok none :=
  (playwright_spec_entry_rule [] [("ok", JValue.bool true)]).1 (by decide)

/-- Witness for C10: no key and no required inputs at all. -/
theorem credential_check_precedes_input_validation_witness :
    (runMain ⟨Command.spec, none, none, none, none, none, none, none⟩
        ⟨none, fun _ => none, fun _ => none, fun _ => Except.ok []⟩).stderr
      = [errMarker ++ apiKeyErrMsg] :=
  (credential_check_precedes_input_validation
    ⟨Command.spec, none, none, none, none, none, none, none⟩
    ⟨none, fun _ => none, fun _ => none, fun _ => Except.ok []⟩ rfl).1

/-- Witness for the amended C6 at the concrete missing-title invocation. -/
theorem errors_single_diagnostic_exit_one_witness :
    SaneOutcome (runMain c6Args c6Env) :=
  errors_single_diagnostic_exit_one c6Args c6Env
